import Mathlib

/-!
Shallow embedding of the MindfulCompanion response-generation pipeline
(src/backend/safety_filter.py, emotion_detector.py, llm_handler.py,
response_generator.py and src/utils/prompts.py), together with theorems
settling the specification claims about it.

Modelling conventions:
* Python strings are modelled as `Text := List Nat` (Unicode code points);
  `str` injects a Lean string literal.
* Python `str.lower` / `str.isupper` are modelled over the ASCII range,
  matching their behaviour on every string appearing in the source
  and in the verified claims.
* The float threshold `len(text) * 0.7` is modelled by the exact rational
  comparison `10 * count > 7 * len`; the two differ only where the binary
  rounding of `len*0.7` crosses an integer, which no verified claim
  exercises.  Likewise intensity scores are computed in `ℚ`.
* The TextBlob sentiment scorer (an optional external dependency) is
  modelled as an oracle parameter `tb : Option (ℚ × ℚ)` giving
  (polarity, subjectivity); `none` selects the keyword fallback branch
  of `detect_emotion`, exactly as when the import fails.
* `random.choice` is modelled by an index parameter `rand : Nat`
  reduced modulo the pool size.
-/

/-- Python strings as lists of Unicode code points. -/
abbrev Text := List Nat

/-- Inject a Lean string literal into the `Text` model. -/
def str (s : String) : Text := s.data.map Char.toNat

/-- ASCII model of `str.lower` on one code point. -/
def lowerc (c : Nat) : Nat := if 65 ≤ c ∧ c ≤ 90 then c + 32 else c

/-- `text.lower()`. -/
def lowerT (t : Text) : Text := t.map lowerc

/-- ASCII model of `str.isupper` on one code point. -/
def isUpperc (c : Nat) : Bool := 65 ≤ c && c ≤ 90

/-- Whitespace as stripped by `str.strip()` (ASCII subset). -/
def isWsc (c : Nat) : Bool := c = 32 || c = 9 || c = 10 || c = 13 || c = 11 || c = 12

/-- `text.strip()`. -/
def stripT (t : Text) : Text :=
  ((t.dropWhile isWsc).reverse.dropWhile isWsc).reverse

/-- Does `n` occur at the head of `h`? (helper for substring search). -/
def leadsWith : Text → Text → Bool
  | [], _ => true
  | _ :: _, [] => false
  | a :: as, b :: bs => a = b && leadsWith as bs

/-- Python's `n in h` substring test. -/
def containsSub (n : Text) : Text → Bool
  | [] => leadsWith n []
  | c :: t => leadsWith n (c :: t) || containsSub n t

/-- `text.rstrip(".!?")` as used by the fallback generator. -/
def rstripPunct (t : Text) : Text :=
  (t.reverse.dropWhile (fun c => c = 46 || c = 33 || c = 63)).reverse

/-! ## SafetyFilter (src/backend/safety_filter.py) -/

/-- `SafetyFilter.crisis_keywords`. -/
def crisis_keywords : List Text :=
  [str "suicide", str "suicidal", str "kill myself", str "end my life", str "die",
   str "self harm", str "cutting", str "overdose", str "hurt myself",
   str "want to die", str "better off dead", str "no reason to live"]

/-- `SafetyFilter.medical_keywords`. -/
def medical_keywords : List Text :=
  [str "diagnose", str "diagnosis", str "prescribe", str "prescription", str "medication",
   str "disorder", str "condition", str "treatment plan", str "therapy", str "cure",
   str "illness", str "disease", str "syndrome", str "clinical"]

/-- `SafetyFilter.prohibited_phrases`. -/
def prohibited_phrases : List Text :=
  [str "you have", str "you are diagnosed", str "you suffer from",
   str "i diagnose", str "you need medication", str "take these pills",
   str "you should stop taking", str "this is definitely"]

/-- The fixed crisis-resource message of `SafetyFilter._get_crisis_response`. -/
def crisis_response : Text :=
  str "I'm concerned about what you've shared. Please know that you don't have to face this alone.\n\n**If you're in immediate danger, please:**\n• Call emergency services (911 in US)\n• Go to your nearest emergency room\n• Call a crisis hotline:\n  - National Suicide Prevention Lifeline: 988\n  - Crisis Text Line: Text HOME to 741741\n  - International: findahelpline.com\n\nYou deserve support from trained professionals who can help you through this. I'm here to listen, but I'm not equipped to handle crisis situations. Please reach out to one of the resources above."

/-- Result record of `SafetyFilter.check_crisis`. -/
structure CrisisVerdict where
  is_crisis : Bool
  severity : Text
  message : Option Text
  deriving Repr, DecidableEq

/-- `SafetyFilter.check_crisis`. -/
def check_crisis (text : Text) : CrisisVerdict :=
  let text_lower := lowerT text
  if crisis_keywords.any (fun k => containsSub k text_lower) then
    ⟨true, str "high", some crisis_response⟩
  else
    ⟨false, str "none", none⟩

/-- The fixed safe-alternative message of `SafetyFilter._get_safe_alternative`. -/
def safe_alternative : Text :=
  str "I want to support you, but I'm not qualified to provide medical advice or diagnosis. \n\nIf you're experiencing mental health concerns, I encourage you to:\n• Speak with a healthcare provider\n• Contact a mental health professional\n• Call a helpline for guidance\n\nI'm here to listen and provide general emotional support. How are you feeling right now?"

/-- `SafetyFilter._is_mental_health_topic`'s fixed term list. -/
def mental_health_terms : List Text :=
  [str "depression", str "anxiety", str "mental health", str "therapy",
   str "counseling", str "psychologist", str "psychiatrist"]

/-- The disclaimer sentence appended by `SafetyFilter._add_disclaimer`. -/
def disclaimer : Text :=
  str "\n\n*Remember: I'm here for support, but I'm not a therapist or medical professional.*"

/-- `SafetyFilter._add_disclaimer`. -/
def add_disclaimer (response : Text) : Text :=
  if containsSub disclaimer response then response else response ++ disclaimer

/-- `SafetyFilter.filter_response` (the `user_message` argument is unused in the source). -/
def filter_response (response : Text) : Text × Bool :=
  let response_lower := lowerT response
  let contains_medical := medical_keywords.any (fun k => containsSub k response_lower)
  let contains_prohibited := prohibited_phrases.any (fun p => containsSub p response_lower)
  if contains_medical || contains_prohibited then
    (safe_alternative, false)
  else if mental_health_terms.any (fun t => containsSub t response_lower) then
    (add_disclaimer response, true)
  else
    (response, true)

/-- Result record of `SafetyFilter.validate_user_input`. -/
structure ValidationVerdict where
  valid : Bool
  reason : Text
  suggestion : Option Text
  deriving Repr, DecidableEq

/-- `SafetyFilter.validate_user_input`.
The float comparison `text.count(text[0]) > len(text) * 0.7` is modelled by
the exact rational test `10 * count > 7 * len`. -/
def validate_user_input (text : Text) : ValidationVerdict :=
  if text = [] || (stripT text).length < 2 then
    ⟨false, str "empty", some (str "Please share what's on your mind.")⟩
  else if text.dedup.length < 3 || 10 * text.count (text.headD 0) > 7 * text.length then
    ⟨false, str "gibberish", some (str "I'm having trouble understanding. Could you rephrase that?")⟩
  else if text.length > 1000 then
    ⟨true, str "long", some (str "That's a lot to process! Let's break it down together.")⟩
  else
    ⟨true, str "ok", none⟩

/-! ## sanitize_output: the three `re.sub` passes of src/backend/safety_filter.py

Each Python pattern is compiled by hand into a deterministic matcher that
follows the `re` engine's leftmost / greedy / ordered-alternative
backtracking discipline for that exact pattern.  `\d`, `\w`, `\s` and the
case classes are modelled over ASCII, matching their behaviour on every
text the claims exercise. -/

/-- `[0-9]` / `\d` (ASCII). -/
def isDigitc (c : Nat) : Bool := 48 ≤ c && c ≤ 57

/-- `[a-zA-Z]` (ASCII). -/
def isAlphac (c : Nat) : Bool := (65 ≤ c && c ≤ 90) || (97 ≤ c && c ≤ 122)

/-- `\w` (ASCII): letters, digits, underscore. -/
def isWordc (c : Nat) : Bool := isAlphac c || isDigitc c || c = 95

/-- Is an optional code point a word character (absent = no)? -/
def wordOpt : Option Nat → Bool
  | none => false
  | some c => isWordc c

/-- The `\b` assertion between two optional neighbouring code points. -/
def boundaryB (prev next : Option Nat) : Bool := wordOpt prev != wordOpt next

/-- The character class of the URL pattern:
`[a-zA-Z]|[0-9]|[$-_@.&+]|[!*\(\),]|%xx` — `[$-_]` is the code-point range
36–95, which subsumes every other listed symbol except `!`; the `%xx`
alternative is shadowed by `%` ∈ `[$-_]` under ordered alternation. -/
def urlCharc (c : Nat) : Bool := isAlphac c || isDigitc c || (36 ≤ c && c ≤ 95) || c = 33

/-- Match `http[s]?://(…)+` at the head of `s`; returns the match length. -/
def matchUrlAt (s : Text) : Option Nat :=
  if leadsWith (str "https://") s then
    let run := ((s.drop 8).takeWhile urlCharc).length
    if 1 ≤ run then some (8 + run) else none
  else if leadsWith (str "http://") s then
    let run := ((s.drop 7).takeWhile urlCharc).length
    if 1 ≤ run then some (7 + run) else none
  else none

/-- `[A-Za-z0-9._%+-]` — local part of the email pattern. -/
def localCharc (c : Nat) : Bool :=
  isAlphac c || isDigitc c || c = 46 || c = 95 || c = 37 || c = 43 || c = 45

/-- `[A-Za-z0-9.-]` — domain part of the email pattern. -/
def domainCharc (c : Nat) : Bool := isAlphac c || isDigitc c || c = 46 || c = 45

/-- `[A-Z|a-z]` — the TLD class of the email pattern (it literally contains `|`). -/
def tldCharc (c : Nat) : Bool := isAlphac c || c = 124

/-- Backtracking for `[A-Z|a-z]{2,}\b` in `s3`: try the candidate length
first (greedy), then shorter, never below 2. -/
def tldBack (s3 : Text) : Nat → Option Nat
  | n + 2 => if boundaryB s3[n + 1]? s3[n + 2]? then some (n + 2) else tldBack s3 (n + 1)
  | _ => none

/-- Backtracking for `[A-Za-z0-9.-]+\.[A-Z|a-z]{2,}\b` in `s2`: try the
candidate domain length first (greedy), then shorter, at least 1;
returns the total length consumed from `s2`. -/
def domainBack (s2 : Text) : Nat → Option Nat
  | 0 => none
  | c + 1 =>
    match
      (if s2[c + 1]? = some 46 then
        let s3 := s2.drop (c + 2)
        (tldBack s3 ((s3.takeWhile tldCharc).length)).map (fun t => (c + 1) + 1 + t)
      else none) with
    | some m => some m
    | none => domainBack s2 c

/-- Match `\b[A-Za-z0-9._%+-]+@[A-Za-z0-9.-]+\.[A-Z|a-z]{2,}\b` at the head
of `s` (`prev` is the preceding code point, for the `\b` assertion). -/
def matchEmailAt (prev : Option Nat) (s : Text) : Option Nat :=
  if boundaryB prev s.head? then
    let l := (s.takeWhile localCharc).length
    if 1 ≤ l then
      if s[l]? = some 64 then
        let s2 := s.drop (l + 1)
        (domainBack s2 ((s2.takeWhile domainCharc).length)).map (fun m => l + 1 + m)
      else none
    else none
  else none

/-- `[-.\s]` — the separator class of the phone pattern. -/
def isSepc (c : Nat) : Bool := c = 45 || c = 46 || isWsc c

/-- Consume exactly `n` digits, returning the rest. -/
def takeDigits : Nat → Text → Option Text
  | 0, s => some s
  | _ + 1, [] => none
  | n + 1, c :: t => if isDigitc c then takeDigits n t else none

/-- Greedy optional single character (`X?`): try consuming, then not. -/
def optCharc (p : Nat → Bool) (k : Text → Option Text) : Text → Option Text
  | [] => k []
  | c :: t => if p c then (k t).orElse (fun _ => k (c :: t)) else k (c :: t)

/-- `\d{n}` followed by continuation `k`. -/
def digitsThen (n : Nat) (k : Text → Option Text) (s : Text) : Option Text :=
  match takeDigits n s with
  | some t => k t
  | none => none

/-- Greedy `\d{1,3}` followed by continuation `k`. -/
def d13Then (k : Text → Option Text) (s : Text) : Option Text :=
  (digitsThen 3 k s).orElse (fun _ => (digitsThen 2 k s).orElse (fun _ => digitsThen 1 k s))

/-- Greedy optional group `(\+\d{1,3}[-.\s]?)?` followed by continuation `k`. -/
def plusGroupThen (k : Text → Option Text) (s : Text) : Option Text :=
  (match s with
   | 43 :: t => d13Then (optCharc isSepc k) t
   | _ => none).orElse (fun _ => k s)

/-- Match `(\+\d{1,3}[-.\s]?)?\(?\d{3}\)?[-.\s]?\d{3}[-.\s]?\d{4}` at the
head of `s`; returns the match length. -/
def matchPhoneAt (s : Text) : Option Nat :=
  match
    plusGroupThen
      (optCharc (· = 40)
        (digitsThen 3
          (optCharc (· = 41)
            (optCharc isSepc
              (digitsThen 3 (optCharc isSepc (digitsThen 4 some))))))) s with
  | some rem => some (s.length - rem.length)
  | none => none

/-- Fuelled scanner for one `re.sub` pass: scan left to right, replace
each leftmost non-overlapping match, resume after it.  `prev` carries the
code point of the original text preceding the scan position (for `\b`).
The fuel only makes the recursion structural; every step consumes at
least one character, so fuel `s.length` (as passed by `subScan`) is
always sufficient. -/
def subScanF (matchAt : Option Nat → Text → Option Nat) (repl : Text) :
    Nat → Option Nat → Text → Text
  | 0, _, s => s
  | _, _, [] => []
  | fuel + 1, prev, c :: t =>
    match matchAt prev (c :: t) with
    | some (n + 1) =>
      repl ++ subScanF matchAt repl fuel ((c :: t).take (n + 1)).getLast? (t.drop n)
    | _ => c :: subScanF matchAt repl fuel (some c) t

/-- One `re.sub` pass over the whole text. -/
def subScan (matchAt : Option Nat → Text → Option Nat) (repl : Text)
    (prev : Option Nat) (s : Text) : Text :=
  subScanF matchAt repl s.length prev s

/-- `SafetyFilter.sanitize_output`: the three redaction passes in source order. -/
def sanitize_output (text : Text) : Text :=
  let t1 := subScan (fun _ s => matchUrlAt s) (str "[link removed]") none text
  let t2 := subScan matchEmailAt (str "[email removed]") none t1
  subScan (fun _ s => matchPhoneAt s) (str "[phone removed]") none t2

/-! ## EmotionDetector (src/backend/emotion_detector.py) -/

/-- `EmotionDetector.emotion_keywords`, in dict declaration order. -/
def emotion_keywords : List (Text × List Text) :=
  [(str "sad",
    [str "sad", str "depressed", str "down", str "unhappy", str "miserable", str "crying",
     str "tears", str "hopeless", str "lonely", str "empty", str "hurt", str "pain",
     str "grief", str "loss", str "heartbroken", str "devastated"]),
   (str "anxious",
    [str "anxious", str "worried", str "nervous", str "stress", str "panic", str "fear",
     str "scared", str "overwhelmed", str "tense", str "restless", str "uneasy",
     str "terrified", str "afraid", str "concern", str "dread"]),
   (str "angry",
    [str "angry", str "mad", str "furious", str "annoyed", str "irritated", str "frustrated",
     str "rage", str "upset", str "hate", str "pissed", str "infuriated", str "resentful"]),
   (str "happy",
    [str "happy", str "joy", str "excited", str "great", str "wonderful", str "amazing",
     str "love", str "grateful", str "blessed", str "content", str "cheerful",
     str "delighted", str "pleased", str "glad", str "fantastic"]),
   (str "fearful",
    [str "fear", str "scared", str "afraid", str "terrified", str "frightened",
     str "horror", str "panic", str "dread", str "phobia", str "nightmare"]),
   (str "confused",
    [str "confused", str "lost", str "unsure", str "don't know", str "uncertain",
     str "puzzled", str "mixed", str "conflicted"])]

/-- `EmotionDetector.intensity_words["high"]`. -/
def intensity_high : List Text :=
  [str "very", str "extremely", str "incredibly", str "so", str "really", str "absolutely"]

/-- `EmotionDetector.intensity_words["low"]`. -/
def intensity_low : List Text :=
  [str "a bit", str "slightly", str "somewhat", str "kind of", str "sort of"]

/-- Positive-keyword list of the TextBlob-free polarity fallback. -/
def positive_words : List Text :=
  [str "happy", str "joy", str "good", str "great", str "wonderful", str "amazing", str "love",
   str "glad", str "fantastic", str "pleased", str "excited", str "grateful"]

/-- Negative-keyword list of the TextBlob-free polarity fallback. -/
def negative_words : List Text :=
  [str "sad", str "depressed", str "bad", str "terrible", str "awful", str "hate", str "angry",
   str "miserable", str "lonely", str "upset", str "anxious", str "worried"]

/-- Count of upper-case characters in `t` (for the caps ratio). -/
def capsCount (t : Text) : Nat := t.countP (fun c => isUpperc c)

/-- Count of `!` characters in `t`. -/
def exclCount (t : Text) : Nat := t.count 33

/-- Count of high-intensity modifier words occurring in `t` (substring test). -/
def highCount (t : Text) : Nat := intensity_high.countP (fun w => containsSub w t)

/-- Count of low-intensity modifier words occurring in `t` (substring test). -/
def lowCount (t : Text) : Nat := intensity_low.countP (fun w => containsSub w t)

/-- The intensity score of `EmotionDetector._calculate_intensity`
(floats modelled exactly in `ℚ`). -/
def intensityScore (t : Text) (subjectivity : ℚ) : ℚ :=
  (highCount t : ℚ) * 2 + (exclCount t : ℚ) * (3 / 2)
    + ((capsCount t : ℚ) / ((max t.length 1 : ℕ) : ℚ)) * 10
    + subjectivity * 2 - (lowCount t : ℚ) * 2

/-- The score-to-label bucketing of `EmotionDetector._calculate_intensity`. -/
def intensityBucket (score : ℚ) : Text :=
  if score > 5 then str "high" else if score > 2 then str "medium" else str "low"

/-- `EmotionDetector._calculate_intensity`. -/
def calculate_intensity (t : Text) (subjectivity : ℚ) : Text :=
  intensityBucket (intensityScore t subjectivity)

/-- `round(x, 2)` (Python's float half-even rounding modelled as exact
half-up rational rounding; no verified claim inspects a value where the
two differ). -/
def round2 (q : ℚ) : ℚ := (Int.floor (q * 100 + 1 / 2) : ℚ) / 100

/-- The classification record returned by `EmotionDetector.detect_emotion`.
The two short-circuit branches of `ResponseGenerator.generate` build
dictionaries holding only `primary_emotion` and `confidence`; the missing
keys are modelled as `none` (read back through `Option.getD`, matching
`dict.get` with a default). -/
structure EmotionData where
  primary_emotion : Text
  confidence : ℚ
  sentiment : Option Text
  intensity : Option Text
  polarity : Option ℚ
  subjectivity : Option ℚ
  deriving Repr, DecidableEq

/-- Python's `max(d, key=d.get)` over an insertion-ordered association
list: the first entry attaining the maximal value. -/
def argmaxFirst (l : List (Text × Nat)) : Option (Text × Nat) :=
  l.foldl
    (fun acc p =>
      match acc with
      | none => some p
      | some q => if p.2 > q.2 then some p else some q)
    none

/-- `EmotionDetector.detect_emotion`.  `tb` is the TextBlob oracle:
`some (polarity, subjectivity)` when the external scorer is available,
`none` for the keyword-count fallback branch of the source. -/
def detect_emotion (tb : Option (ℚ × ℚ)) (text : Text) : EmotionData :=
  let text_lower := lowerT text
  let ps : ℚ × ℚ :=
    match tb with
    | some v => v
    | none =>
      let pos_count := positive_words.countP (fun w => containsSub w text_lower)
      let neg_count := negative_words.countP (fun w => containsSub w text_lower)
      (if pos_count + neg_count = 0 then 0
       else ((pos_count : ℚ) - (neg_count : ℚ)) / ((max 1 (pos_count + neg_count) : ℕ) : ℚ), 0)
  let polarity := ps.1
  let subjectivity := ps.2
  let emotion_scores :=
    (emotion_keywords.map
      (fun ek => (ek.1, ek.2.countP (fun k => containsSub k text_lower)))).filter
      (fun p => p.2 > 0)
  let pc : Text × ℚ :=
    match argmaxFirst emotion_scores with
    | some (e, n) => (e, min ((n : ℚ) * (1 / 4)) 1)
    | none =>
      if polarity > 3 / 10 then (str "happy", polarity)
      else if polarity < -(3 / 10) then (str "sad", |polarity|)
      else (str "neutral", 1 / 2)
  let intensity := calculate_intensity text_lower subjectivity
  let sentiment :=
    if polarity > 1 / 10 then str "positive"
    else if polarity < -(1 / 10) then str "negative"
    else str "neutral"
  ⟨pc.1, round2 pc.2, some sentiment, some intensity, some (round2 polarity),
   some (round2 subjectivity)⟩

/-- Association-list lookup, modelling `dict.get`. -/
def lookupT {α : Type} (l : List (Text × α)) (k : Text) : Option α :=
  (l.find? (fun p => p.1 == k)).map (·.2)

/-- `EmotionDetector.get_emotion_emoji` (the emoji literals in the source
file are mojibake; the exact code points of the file are reproduced). -/
def get_emotion_emoji (emotion : Text) : Text :=
  (lookupT
    [(str "sad", [240, 376, 732, 162]),
     (str "anxious", [240, 376, 732, 176]),
     (str "angry", [240, 376, 732, 160]),
     (str "happy", [240, 376, 732, 352]),
     (str "fearful", [240, 376, 732, 168]),
     (str "confused", [240, 376, 732, 8226]),
     (str "neutral", [240, 376, 732])]
    emotion).getD [240, 376, 8217, 173]

/-- `EmotionDetector.get_emotion_color`. -/
def get_emotion_color (emotion : Text) : Text :=
  (lookupT
    [(str "sad", str "#6B8E23"),
     (str "anxious", str "#FF8C00"),
     (str "angry", str "#DC143C"),
     (str "happy", str "#32CD32"),
     (str "fearful", str "#9370DB"),
     (str "confused", str "#4682B4"),
     (str "neutral", str "#808080")]
    emotion).getD (str "#808080")

/-! ## PromptBuilder (src/utils/prompts.py) -/

/-- `PromptBuilder.system_prompt`. -/
def system_prompt : Text :=
  str "You are a compassionate mental wellness companion. Your role is to:\n\n- Listen actively and validate emotions\n- Provide supportive, non-judgmental responses\n- Offer general wellness tips and coping strategies\n- Encourage self-care and healthy habits\n- NEVER diagnose or provide medical advice\n- NEVER claim to be a therapist or medical professional\n- Redirect to professional help when appropriate\n\nGuidelines:\n- Keep responses warm, empathetic, and concise (2-4 sentences)\n- Use \"I understand\", \"That sounds difficult\", \"Your feelings are valid\"\n- Ask thoughtful follow-up questions\n- Suggest healthy coping mechanisms\n- Avoid clinical language\n- Be authentic and human\n\nIf someone is in crisis, immediately suggest professional crisis resources."

/-- The `neutral` guidance template (also the `dict.get` default). -/
def neutral_guidance : Text :=
  str "Engage warmly and naturally. Ask open-ended questions to understand \n            how they're really feeling."

/-- `PromptBuilder._get_emotion_context`: the seven guidance templates,
reproduced with the exact embedded newlines and indentation of the
triple-quoted source literals. -/
def get_emotion_context (emotion : Text) : Text :=
  (lookupT
    [(str "sad",
      str "The user is feeling sad. Acknowledge their pain, validate their feelings, \n            and gently encourage them without dismissing their emotions. Suggest small, \n            manageable self-care activities."),
     (str "anxious",
      str "The user is feeling anxious. Help them feel grounded. Suggest \n            breathing exercises or grounding techniques. Remind them this feeling is temporary."),
     (str "angry",
      str "The user is feeling angry. Validate that anger is a normal emotion. \n            Help them identify what triggered it. Suggest healthy ways to process these feelings."),
     (str "happy",
      str "The user is feeling happy! Celebrate with them. Ask what contributed \n            to these positive feelings. Encourage them to savor this moment."),
     (str "fearful",
      str "The user is feeling fearful. Provide reassurance. Help them feel \n            safe. Break down their fears into manageable pieces. Remind them of their strength."),
     (str "confused",
      str "The user is feeling confused. Help them organize their thoughts. \n            Ask clarifying questions. Break things down step by step."),
     (str "neutral", neutral_guidance)]
    emotion).getD neutral_guidance

/-- One conversation turn (`{"role": …, "content": …}`). -/
structure Turn where
  role : Text
  content : Text
  deriving Repr, DecidableEq

/-- `PromptBuilder._format_history` with the default `max_turns = 3`. -/
def format_history (history : List Turn) : Text :=
  let recent := if history.length > 6 then history.drop (history.length - 6) else history
  List.intercalate (str "\n")
    (recent.map
      (fun m =>
        (if m.role == str "user" then str "User: " else str "Assistant: ") ++
          m.content.take 200))

/-- `PromptBuilder.build_prompt`. -/
def build_prompt (user_message : Text) (emotion : Text)
    (conversation_history : List Turn) : Text :=
  let parts1 :=
    [system_prompt,
     str "\nCurrent user emotion: " ++ emotion ++ str "\n" ++ get_emotion_context emotion]
  let parts2 :=
    if conversation_history ≠ [] then
      parts1 ++ [str "\nConversation history:\n" ++ format_history conversation_history]
    else parts1
  List.intercalate (str "\n")
    (parts2 ++ [str "\nUser: " ++ user_message ++ str "\n\nRespond with empathy and support:"])

/-! ## LLMHandler (src/backend/llm_handler.py) -/

/-- The identifier of the configured primary model (`LLMHandler.current_model`). -/
def current_model : Text := str "mistralai/Mistral-7B-Instruct-v0.1"

/-- The `neutral` pool of canned fallback sentences (also the
`dict.get` default pool). -/
def neutral_pool : List Text :=
  [str "I'm here and listening. What's on your mind today?",
   str "How are you truly feeling beneath the surface?",
   str "I'm interested in what you have to share. What brings you here?",
   str "Take your time. I'm ready to listen to whatever you want to express.",
   str "Tell me more. What would be most helpful to talk about right now?"]

/-- `LLMHandler._fallback_response`'s per-emotion pools, in dict order. -/
def fallback_responses : List (Text × List Text) :=
  [(str "sad",
    [str "I hear you, and it's completely okay to feel this way right now.",
     str "These difficult emotions are temporary, even though they feel heavy.",
     str "You're stronger than you realize. Let's take this one moment at a time.",
     str "What you're feeling is valid. Would it help to talk about what's troubling you?",
     str "Sometimes we all need support. I'm here to listen without judgment."]),
   (str "anxious",
    [str "Anxiety can feel overwhelming, but remember: you've handled difficult moments before.",
     str "Try this: breathe in for 4 counts, hold for 4, breathe out for 6. Let's slow things down.",
     str "What's one small thing you could control right now? Sometimes focusing helps.",
     str "Your worries are real, but not everything you worry about will happen.",
     str "Grounding yourself might help. What's one thing you can see, hear, or feel right now?"]),
   (str "angry",
    [str "Your anger is valid. Strong feelings mean something matters to you.",
     str "Before acting on this feeling, pause. What do you really need right now?",
     str "It's okay to be frustrated. Let's explore what's really bothering you.",
     str "Anger often masks another emotion. Can you dig deeper into what you're feeling?",
     str "Taking a break might help. What usually calms you down?"]),
   (str "happy",
    [str "That's wonderful! I'm genuinely glad you're experiencing these positive feelings.",
     str "This is beautiful to hear. What's making you feel so good right now?",
     str "Let's celebrate this moment with you! What's contributing most?",
     str "Savor this feeling! These good moments are important and worth recognizing.",
     str "Your joy is contagious. Keep embracing these positive moments!"]),
   (str "neutral", neutral_pool),
   (str "fearful",
    [str "Fear is natural, but you're safe right now in this moment.",
     str "What you're afraid of feels real, and that's okay. Let's face it together.",
     str "You're braver than you believe. What specifically is scaring you?",
     str "Fear often shrinks when we talk about it. I'm here to listen.",
     str "Remember: you've overcome challenges before. This is just one more."])]

/-- `LLMHandler._fallback_response`'s `context_additions`, in dict order,
with each `"a|b|c"` key pre-split on `|`. -/
def context_additions : List (List Text × Text) :=
  [([str "sleep", str "tired", str "exhausted"],
    str " Getting quality sleep could really help you right now."),
   ([str "work", str "job", str "boss", str "colleague"],
    str " Work stress is real. Remember, you deserve breaks and boundaries."),
   ([str "relationship", str "friend", str "family", str "love"],
    str " Relationships matter. Communication is often the first step."),
   ([str "health", str "sick", str "pain", str "hurt"],
    str " Your wellbeing is important. Take care of yourself first."),
   ([str "money", str "financial", str "broke", str "debt"],
    str " Financial stress is significant. But you have more control than you think."),
   ([str "future", str "tomorrow", str "worry", str "what if"],
    str " Focus on today. Tomorrow will take care of itself.")]

/-- The keyword loop of `_fallback_response`: the addition of the first
group (in declaration order) with a keyword occurring in the text, if any. -/
def firstAddition : List (List Text × Text) → Text → Option Text
  | [], _ => none
  | (kws, add) :: rest, uml =>
    if kws.any (fun k => containsSub k uml) then some add else firstAddition rest uml

/-- `LLMHandler._fallback_response` (`rand` models `random.choice`). -/
def fallback_response (emotion : Text) (user_message : Text) (rand : Nat) : Text :=
  let responses := (lookupT fallback_responses emotion).getD neutral_pool
  let base_response := responses.getD (rand % responses.length) []
  match firstAddition context_additions (lowerT user_message) with
  | some addition => rstripPunct base_response ++ str "." ++ addition
  | none => base_response

/-- `.`, `!` or `?`. -/
def isPunctc (c : Nat) : Bool := c = 46 || c = 33 || c = 63

/-- The index of the last sentence-ending punctuation mark
(`max(text.rfind('.'), text.rfind('!'), text.rfind('?'))`, with
`none` for `-1`). -/
def findLastPunct (t : Text) : Option Nat :=
  match t.reverse.findIdx? isPunctc with
  | some i => some (t.length - 1 - i)
  | none => none

/-- `LLMHandler._clean_response`. -/
def clean_response (text : Text) : Text :=
  let s := stripT text
  match s.getLast? with
  | none => s
  | some c =>
    if isPunctc c then s
    else
      match findLastPunct s with
      | some k => if k > 0 then s.take (k + 1) else s
      | none => s

/-- Behaviour of the external generation service on one call:
unavailable (no credential / client), raising an exception, or
returning a string. -/
inductive ServiceBehavior where
  | unavailable
  | raises
  | returns (s : Text)
  deriving Repr, DecidableEq

/-- `LLMHandler.generate_response`.  Every failure of the remote call is
caught in the source (`except Exception`) and routed to the fallback;
note that the fallback receives the full `prompt` as its
`user_message` argument, exactly as in the source. -/
def generate_response (svc : ServiceBehavior) (prompt : Text) (emotion : Text)
    (rand : Nat) : Text :=
  match svc with
  | .unavailable => fallback_response emotion prompt rand
  | .raises => fallback_response emotion prompt rand
  | .returns s => if s ≠ [] then clean_response s else fallback_response emotion prompt rand

/-! ## ResponseGenerator (src/backend/response_generator.py) -/

/-- The metadata attached to a pipeline reply, one constructor per
construction site in `ResponseGenerator.generate`. -/
inductive Metadata where
  | validationFailed
  | crisisFlag
  | generated (model_used : Text) (prompt_length : Nat)
  deriving Repr, DecidableEq

/-- The pipeline stages, used to record which components a call invokes. -/
inductive Step where
  | validateStep
  | crisisStep
  | detectStep
  | promptStep
  | llmStep
  | filterStep
  | sanitizeStep
  | historyStep
  deriving Repr, DecidableEq

/-- The reply object assembled by `ResponseGenerator._create_response_object`. -/
structure GenResult where
  response : Text
  emotion : Text
  emotion_confidence : ℚ
  sentiment : Text
  intensity : Text
  emoji : Text
  color : Text
  is_safe : Bool
  metadata : Metadata
  deriving Repr, DecidableEq

/-- `ResponseGenerator._create_response_object` (the `dict.get` defaults
of the source become `Option.getD`). -/
def create_response_object (response : Text) (emotion_data : EmotionData)
    (is_safe : Bool) (metadata : Metadata) : GenResult :=
  { response := response
    emotion := emotion_data.primary_emotion
    emotion_confidence := emotion_data.confidence
    sentiment := emotion_data.sentiment.getD (str "neutral")
    intensity := emotion_data.intensity.getD (str "medium")
    emoji := get_emotion_emoji emotion_data.primary_emotion
    color := get_emotion_color emotion_data.primary_emotion
    is_safe := is_safe
    metadata := metadata }

/-- `ResponseGenerator._update_history`.  Python's
`history[-(max_history*2):]` is the whole list when `max_history = 0`
(a `[-0:]` slice), hence the inner guard. -/
def update_history (history : List Turn) (user_msg bot_msg : Text)
    (max_history : Nat := 10) : List Turn :=
  let h := history ++ [⟨str "user", user_msg⟩, ⟨str "assistant", bot_msg⟩]
  if h.length > max_history * 2 then
    if max_history * 2 = 0 then h else h.drop (h.length - max_history * 2)
  else h

/-- `ResponseGenerator.generate`, instrumented: besides the reply it
returns the updated internal history and the list of pipeline stages the
call executed (in order), so that short-circuiting is observable. -/
def generateT (svc : ServiceBehavior) (tb : Option (ℚ × ℚ)) (rand : Nat)
    (user_message : Text) (conversation_context : Option (List Turn))
    (history : List Turn) : GenResult × List Turn × List Step :=
  let validation := validate_user_input user_message
  if !validation.valid then
    (create_response_object (validation.suggestion.getD [])
      ⟨str "neutral", 1, none, none, none, none⟩ true .validationFailed,
     history, [.validateStep])
  else
    let crisis_check := check_crisis user_message
    if crisis_check.is_crisis then
      (create_response_object (crisis_check.message.getD [])
        ⟨str "fearful", 1, none, none, none, none⟩ true .crisisFlag,
       history, [.validateStep, .crisisStep])
    else
      let emotion_data := detect_emotion tb user_message
      let ctx :=
        match conversation_context with
        | some c => if c ≠ [] then c else history
        | none => history
      let prompt := build_prompt user_message emotion_data.primary_emotion ctx
      let raw_response := generate_response svc prompt emotion_data.primary_emotion rand
      let fr := filter_response raw_response
      let final_response := sanitize_output fr.1
      let history' := update_history history user_message final_response
      (create_response_object final_response emotion_data fr.2
        (.generated current_model prompt.length),
       history',
       [.validateStep, .crisisStep, .detectStep, .promptStep, .llmStep, .filterStep,
        .sanitizeStep, .historyStep])

/-- The reply component of `ResponseGenerator.generate`. -/
def generate (svc : ServiceBehavior) (tb : Option (ℚ × ℚ)) (rand : Nat)
    (user_message : Text) (conversation_context : Option (List Turn))
    (history : List Turn) : GenResult :=
  (generateT svc tb rand user_message conversation_context history).1

/-! ## Helper lemmas -/

/-- Unfolding equation for `check_crisis`. -/
theorem check_crisis_eq (t : Text) :
    check_crisis t =
      if crisis_keywords.any (fun k => containsSub k (lowerT t)) then
        ⟨true, str "high", some crisis_response⟩
      else ⟨false, str "none", none⟩ := rfl

/-- A detected crisis always carries the fixed crisis message. -/
theorem check_crisis_message {t : Text} (h : (check_crisis t).is_crisis = true) :
    (check_crisis t).message = some crisis_response := by
  rw [check_crisis_eq] at h ⊢
  by_cases hb : crisis_keywords.any (fun k => containsSub k (lowerT t)) = true
  · simp [hb]
  · simp [hb] at h

/-! ## Claim C1 -/

/-- C1 (as stated) is false: the input "dddddddddie" contains the crisis
keyword "die", yet `generate` takes the validation branch (the gibberish
check fires first), so the reply is not flagged as a crisis and is not
the crisis message. -/
theorem c1_counterexample :
    crisis_keywords.any (fun k => containsSub k (lowerT (str "dddddddddie"))) = true ∧
    (generate .unavailable none 0 (str "dddddddddie") none []).metadata =
      Metadata.validationFailed ∧
    (generate .unavailable none 0 (str "dddddddddie") none []).response ≠ crisis_response :=
  ⟨by decide, by decide, by decide⟩

/-- C1 (amended): for every input that passes validation and contains a
crisis keyword, `generate` returns the fixed crisis message verbatim with
crisis metadata, regardless of the service behaviour, the sentiment
oracle, the random draw, the supplied context and the history. -/
theorem c1_crisis_terminal (svc : ServiceBehavior) (tb : Option (ℚ × ℚ)) (rand : Nat)
    (msg : Text) (ctx : Option (List Turn)) (hist : List Turn)
    (hv : (validate_user_input msg).valid = true)
    (hc : (check_crisis msg).is_crisis = true) :
    (generate svc tb rand msg ctx hist).response = crisis_response ∧
    (generate svc tb rand msg ctx hist).metadata = Metadata.crisisFlag := by
  have hm := check_crisis_message hc
  simp only [generate, generateT, hv, Bool.not_true, Bool.false_eq_true, if_false, hc, if_true,
    hm, Option.getD_some]
  exact ⟨rfl, rfl⟩

/-- C1 witness: the canonical crisis utterance exercises the amended claim. -/
theorem c1_witness :
    (generate .unavailable none 0 (str "I want to kill myself") none []).response =
      crisis_response ∧
    (generate .unavailable none 0 (str "I want to kill myself") none []).metadata =
      Metadata.crisisFlag :=
  c1_crisis_terminal .unavailable none 0 (str "I want to kill myself") none []
    (by decide) (by decide)

/-! ## Claim C2 -/

/-- C2: whenever a validated message is flagged by `check_crisis`,
`generate` terminates on the crisis branch: emotion forced to fearful
with confidence 1, the reply is the fixed crisis message, and the
executed stages are exactly validation and crisis check — the emotion
classifier, the prompt builder and the generation client are never
invoked. -/
theorem c2_crisis_short_circuit (svc : ServiceBehavior) (tb : Option (ℚ × ℚ)) (rand : Nat)
    (msg : Text) (ctx : Option (List Turn)) (hist : List Turn)
    (hv : (validate_user_input msg).valid = true)
    (hc : (check_crisis msg).is_crisis = true) :
    generateT svc tb rand msg ctx hist =
      (create_response_object crisis_response
        ⟨str "fearful", 1, none, none, none, none⟩ true .crisisFlag,
       hist, [Step.validateStep, Step.crisisStep]) ∧
    (generateT svc tb rand msg ctx hist).1.emotion = str "fearful" ∧
    (generateT svc tb rand msg ctx hist).1.emotion_confidence = 1 ∧
    Step.detectStep ∉ (generateT svc tb rand msg ctx hist).2.2 ∧
    Step.promptStep ∉ (generateT svc tb rand msg ctx hist).2.2 ∧
    Step.llmStep ∉ (generateT svc tb rand msg ctx hist).2.2 := by
  have hm := check_crisis_message hc
  have key : generateT svc tb rand msg ctx hist =
      (create_response_object crisis_response
        ⟨str "fearful", 1, none, none, none, none⟩ true .crisisFlag,
       hist, [Step.validateStep, Step.crisisStep]) := by
    simp only [generateT, hv, Bool.not_true, Bool.false_eq_true, if_false, hc, if_true,
      hm, Option.getD_some]
  rw [key]
  refine ⟨rfl, rfl, rfl, ?_, ?_, ?_⟩ <;> simp

/-- C2 witness: a validated message containing the keyword "suicidal". -/
theorem c2_witness :
    generateT .raises none 5 (str "I feel suicidal") none [] =
      (create_response_object crisis_response
        ⟨str "fearful", 1, none, none, none, none⟩ true .crisisFlag,
       [], [Step.validateStep, Step.crisisStep]) :=
  (c2_crisis_short_circuit .raises none 5 (str "I feel suicidal") none []
    (by decide) (by decide)).1

/-! ## Claim C3 -/

/-- C3: `generate_response` is total over every service behaviour: its
result is always either the canned fallback (service absent, call
raising, or empty output) or the cleaned service text, and the full
pipeline treats a raising call exactly like an absent service — no
failure is ever propagated to the caller. -/
theorem c3_total (svc : ServiceBehavior) (prompt emotion : Text) (rand : Nat) :
    (generate_response svc prompt emotion rand = fallback_response emotion prompt rand ∨
      ∃ s, svc = ServiceBehavior.returns s ∧ s ≠ [] ∧
        generate_response svc prompt emotion rand = clean_response s) ∧
    (∀ (tb : Option (ℚ × ℚ)) (msg : Text) (ctx : Option (List Turn)) (hist : List Turn),
      generateT .raises tb rand msg ctx hist = generateT .unavailable tb rand msg ctx hist) := by
  constructor
  · cases svc with
    | unavailable => exact Or.inl rfl
    | raises => exact Or.inl rfl
    | returns s =>
      by_cases hs : s = []
      · subst hs
        exact Or.inl (by simp [generate_response])
      · exact Or.inr ⟨s, rfl, hs, by simp [generate_response, hs]⟩
  · intro tb msg ctx hist
    rfl

/-! ## Claim C4 -/

/-- The discard condition of `filter_response`: some medical keyword or
prohibited phrase occurs (case-insensitively) in the candidate. -/
def flaggedResponse (response : Text) : Bool :=
  medical_keywords.any (fun k => containsSub k (lowerT response)) ||
    prohibited_phrases.any (fun p => containsSub p (lowerT response))

/-- C4: a candidate containing any medical keyword or prohibited phrase is
discarded for the fixed safe alternative with `is_safe = false`; any other
candidate is returned — possibly with the disclaimer appended — with
`is_safe = true`. -/
theorem c4_filter_contract (response : Text) :
    (flaggedResponse response = true →
      filter_response response = (safe_alternative, false)) ∧
    (flaggedResponse response = false →
      (filter_response response).2 = true ∧
      ((filter_response response).1 = response ∨
        (filter_response response).1 = response ++ disclaimer)) := by
  constructor
  · intro h
    simp only [flaggedResponse, Bool.or_eq_true] at h
    simp only [filter_response]
    rcases h with h | h
    · simp [h]
    · simp [h]
  · intro h
    simp only [flaggedResponse] at h
    rw [Bool.or_eq_false_iff] at h
    simp only [filter_response, h.1, h.2, Bool.or_self, if_false]
    by_cases hm : mental_health_terms.any (fun t => containsSub t (lowerT response)) = true
    · simp only [hm, if_true, add_disclaimer]
      by_cases hd : containsSub disclaimer response = true
      · simp [hd]
      · simp [hd]
    · simp only [Bool.not_eq_true] at hm
      simp [hm]

/-- C4 witness: the spec's example candidate is discarded, and a benign
candidate passes through safely. -/
theorem c4_witness :
    filter_response (str "You have depression and need medication") = (safe_alternative, false) ∧
    ((filter_response (str "That sounds hard. Tell me more.")).2 = true ∧
      ((filter_response (str "That sounds hard. Tell me more.")).1 =
          str "That sounds hard. Tell me more." ∨
        (filter_response (str "That sounds hard. Tell me more.")).1 =
          str "That sounds hard. Tell me more." ++ disclaimer)) :=
  ⟨(c4_filter_contract (str "You have depression and need medication")).1 (by decide),
   (c4_filter_contract (str "That sounds hard. Tell me more.")).2 (by decide)⟩

/-! ## Claim C5 -/

/-- The empty needle occurs in every text. -/
theorem containsSub_nil (t : Text) : containsSub [] t = true := by
  induction t with
  | nil => rfl
  | cons c t ih => simp [containsSub, leadsWith]

/-- A needle at the head of `h` is still at the head of `h ++ t`. -/
theorem leadsWith_append {n h : Text} (hn : leadsWith n h = true) (t : Text) :
    leadsWith n (h ++ t) = true := by
  induction n generalizing h with
  | nil => simp [leadsWith]
  | cons a as ih =>
    cases h with
    | nil => simp [leadsWith] at hn
    | cons b bs =>
      simp only [leadsWith, Bool.and_eq_true, decide_eq_true_eq] at hn
      simp only [List.cons_append, leadsWith, Bool.and_eq_true, decide_eq_true_eq]
      exact ⟨hn.1, ih hn.2⟩

/-- A substring of `h` is a substring of `h ++ t`. -/
theorem containsSub_append_left {n h : Text} (hc : containsSub n h = true) (t : Text) :
    containsSub n (h ++ t) = true := by
  induction h with
  | nil =>
    cases n with
    | nil => exact containsSub_nil t
    | cons a as => simp [containsSub, leadsWith] at hc
  | cons b bs ih =>
    simp only [containsSub, Bool.or_eq_true] at hc
    simp only [List.cons_append, containsSub, Bool.or_eq_true]
    rcases hc with hc | hc
    · exact Or.inl (leadsWith_append hc t)
    · exact Or.inr (ih hc)

/-- Peeling the first part off an `intercalate` with at least two parts. -/
theorem intercalate_cons_cons (sep x y : Text) (xs : List Text) :
    List.intercalate sep (x :: y :: xs) = x ++ (sep ++ List.intercalate sep (y :: xs)) := by
  simp [List.intercalate, List.intersperse]

/-- Every composed prompt starts with the fixed system instruction. -/
theorem build_prompt_head (msg emotion : Text) (hist : List Turn) :
    ∃ rest, build_prompt msg emotion hist = system_prompt ++ rest := by
  by_cases h : hist = []
  · subst h
    simp only [build_prompt, ne_eq, not_true_eq_false, if_false, List.nil_append,
      List.cons_append]
    rw [intercalate_cons_cons]
    exact ⟨_, rfl⟩
  · simp only [build_prompt, ne_eq, h, not_false_eq_true, if_true, List.cons_append,
      List.nil_append]
    rw [intercalate_cons_cons]
    exact ⟨_, rfl⟩

/-- The lower-cased composed prompt always contains "health" (from
"healthy habits" in the system instruction). -/
theorem prompt_contains_health (msg emotion : Text) (hist : List Turn) :
    containsSub (str "health") (lowerT (build_prompt msg emotion hist)) = true := by
  obtain ⟨rest, hr⟩ := build_prompt_head msg emotion hist
  rw [hr]
  show containsSub (str "health") (List.map lowerc (system_prompt ++ rest)) = true
  rw [List.map_append]
  exact containsSub_append_left (by decide) _

/-- If some group of `l` matches, the keyword loop returns an addition. -/
theorem firstAddition_isSome_of_any {l : List (List Text × Text)} {t : Text}
    (h : (l.any fun p => p.1.any fun k => containsSub k t) = true) :
    (firstAddition l t).isSome = true := by
  induction l with
  | nil => simp at h
  | cons q rest ih =>
    obtain ⟨kws, add⟩ := q
    simp only [List.any_cons, Bool.or_eq_true] at h
    by_cases hq : (kws.any fun k => containsSub k t) = true
    · simp [firstAddition, hq]
    · have hr : (rest.any fun p => p.1.any fun k => containsSub k t) = true := by
        rcases h with h | h
        · exact absurd h hq
        · exact h
      simp [firstAddition, hq, ih hr]

/-- The keyword loop returns the addition of the first matching group. -/
theorem firstAddition_first_match {l : List (List Text × Text)} {t a : Text}
    (h : firstAddition l t = some a) :
    ∃ i, i < l.length ∧
      ((l.getD i ([], [])).1.any fun k => containsSub k t) = true ∧
      (∀ j, j < i → ((l.getD j ([], [])).1.any fun k => containsSub k t) = false) ∧
      a = (l.getD i ([], [])).2 := by
  induction l generalizing a with
  | nil => simp [firstAddition] at h
  | cons q rest ih =>
    obtain ⟨kws, add⟩ := q
    by_cases hq : (kws.any fun k => containsSub k t) = true
    · refine ⟨0, by simp, by simpa using hq, by omega, ?_⟩
      simp only [firstAddition, hq, if_true, Option.some.injEq] at h
      simp [h.symm]
    · simp only [firstAddition, hq, if_false] at h
      obtain ⟨i, hi, hmatch, hbefore, ha⟩ := ih h
      refine ⟨i + 1, by simpa using hi, by simpa using hmatch, ?_, by simpa using ha⟩
      intro j hj
      cases j with
      | zero => simpa using (Bool.not_eq_true _).mp hq
      | succ j' => simpa using hbefore j' (by omega)

/-- Every fallback pool — looked up or defaulted — has five sentences. -/
theorem pool_length (e : Text) :
    ((lookupT fallback_responses e).getD neutral_pool).length = 5 := by
  unfold lookupT
  cases hf : fallback_responses.find? (fun p => p.1 == e) with
  | none => simp [hf, neutral_pool]
  | some p =>
    have hmem := List.mem_of_find?_eq_some hf
    have hall : ∀ q ∈ fallback_responses, q.2.length = 5 := by decide
    simp [hf, hall p hmem]

set_option maxRecDepth 8000 in
/-- C5 (as stated) is false: the user message "hello" contains no topic
keyword, yet in fallback mode the canned reply still receives the
"health" addendum, because the keyword check runs on the composed prompt
(whose system instruction contains "healthy") rather than on the user
message. -/
theorem c5_counterexample :
    firstAddition context_additions (lowerT (str "hello")) = none ∧
    generate_response .unavailable (build_prompt (str "hello") (str "neutral") [])
        (str "neutral") 0 =
      rstripPunct (neutral_pool.getD 0 []) ++ str "." ++
        str " Your wellbeing is important. Take care of yourself first." :=
  ⟨by decide, by decide⟩

/-- C5 (amended): in fallback mode the contextual addendum is chosen by
the first group (in declaration order) whose keyword occurs in the
composed prompt — the value actually passed as `user_message` — and
since the system instruction always contributes "health", some addendum
is always appended to the selected pool sentence. -/
theorem c5_prompt_keyword_addendum :
    (∀ (t a : Text), firstAddition context_additions t = some a →
      ∃ i, i < context_additions.length ∧
        ((context_additions.getD i ([], [])).1.any fun k => containsSub k t) = true ∧
        (∀ j, j < i →
          ((context_additions.getD j ([], [])).1.any fun k => containsSub k t) = false) ∧
        a = (context_additions.getD i ([], [])).2) ∧
    (∀ (emotion msg : Text) (hist : List Turn) (rand : Nat),
      ∃ a base,
        firstAddition context_additions (lowerT (build_prompt msg emotion hist)) = some a ∧
        base ∈ (lookupT fallback_responses emotion).getD neutral_pool ∧
        generate_response .unavailable (build_prompt msg emotion hist) emotion rand =
          rstripPunct base ++ str "." ++ a) := by
  constructor
  · intro t a h
    exact firstAddition_first_match h
  · intro emotion msg hist rand
    have hh := prompt_contains_health msg emotion hist
    have hsome : (firstAddition context_additions
        (lowerT (build_prompt msg emotion hist))).isSome = true := by
      apply firstAddition_isSome_of_any
      refine List.any_eq_true.mpr ⟨([str "health", str "sick", str "pain", str "hurt"],
        str " Your wellbeing is important. Take care of yourself first."), ?_, ?_⟩
      · unfold context_additions
        exact List.mem_cons_of_mem _ (List.mem_cons_of_mem _ (List.mem_cons_of_mem _
          (List.mem_cons_self _ _)))
      · simp only [List.any_cons, hh, Bool.true_or]
    obtain ⟨a, ha⟩ := Option.isSome_iff_exists.mp hsome
    have hlen := pool_length emotion
    have hlt : rand % ((lookupT fallback_responses emotion).getD neutral_pool).length <
        ((lookupT fallback_responses emotion).getD neutral_pool).length := by
      rw [hlen]; omega
    refine ⟨a, ((lookupT fallback_responses emotion).getD neutral_pool).get
      ⟨rand % ((lookupT fallback_responses emotion).getD neutral_pool).length, hlt⟩,
      ha, List.get_mem _ _ _, ?_⟩
    show fallback_response emotion (build_prompt msg emotion hist) rand = _
    unfold fallback_response
    simp only [ha]
    rw [List.getD_eq_getElem _ _ hlt, List.get_eq_getElem]

/-- C5 witness: a concrete instantiation of the amended claim, with the
first-match characterization discharged on a message about sleep. -/
theorem c5_witness :
    (∃ i, i < context_additions.length ∧
      ((context_additions.getD i ([], [])).1.any fun k =>
        containsSub k (str "so tired today")) = true ∧
      (∀ j, j < i →
        ((context_additions.getD j ([], [])).1.any fun k =>
          containsSub k (str "so tired today")) = false) ∧
      str " Getting quality sleep could really help you right now." =
        (context_additions.getD i ([], [])).2) ∧
    (∃ a base,
      firstAddition context_additions
          (lowerT (build_prompt (str "hi there") (str "neutral") [])) = some a ∧
      base ∈ (lookupT fallback_responses (str "neutral")).getD neutral_pool ∧
      generate_response .unavailable (build_prompt (str "hi there") (str "neutral") [])
          (str "neutral") 2 =
        rstripPunct base ++ str "." ++ a) :=
  ⟨c5_prompt_keyword_addendum.1 (str "so tired today")
      (str " Getting quality sleep could really help you right now.") (by decide),
   c5_prompt_keyword_addendum.2 (str "neutral") (str "hi there") [] 2⟩

/-! ## Claim C6 -/

/-- C6 (as stated) is false: in "xyaaaaaaaaaa" the character `a` occupies
more than 70% of the text, yet `validate_user_input` returns valid/ok —
the source only tests the frequency of the first character `text[0]`. -/
theorem c6_counterexample :
    (∃ c ∈ str "xyaaaaaaaaaa",
      10 * (str "xyaaaaaaaaaa").count c > 7 * (str "xyaaaaaaaaaa").length) ∧
    validate_user_input (str "xyaaaaaaaaaa") = ⟨true, str "ok", none⟩ :=
  ⟨by decide, by decide⟩

/-- C6 (amended): for every text that passes the empty check, if it has
fewer than 3 distinct characters or its first character's frequency
exceeds 70% of its length, `validate_user_input` rejects it as
gibberish. -/
theorem c6_gibberish (t : Text)
    (h1 : ¬(t = [] ∨ (stripT t).length < 2))
    (h2 : t.dedup.length < 3 ∨ 10 * t.count (t.headD 0) > 7 * t.length) :
    validate_user_input t =
      ⟨false, str "gibberish",
        some (str "I'm having trouble understanding. Could you rephrase that?")⟩ := by
  rw [not_or] at h1
  simp only [List.headD_eq_head?_getD] at h2
  unfold validate_user_input
  rw [if_neg (by simp [h1.1, h1.2]), if_pos (by rcases h2 with h2 | h2 <;> simp [h2])]

/-- C6 witness: "aaaaaaab" passes the empty check, has two distinct
characters and a first character above the 70% threshold. -/
theorem c6_witness :
    validate_user_input (str "aaaaaaab") =
      ⟨false, str "gibberish",
        some (str "I'm having trouble understanding. Could you rephrase that?")⟩ :=
  c6_gibberish (str "aaaaaaab") (by decide) (by decide)

/-! ## Claim C7 -/

/-- Lower-casing never produces an upper-case character. -/
theorem isUpperc_lowerc (c : Nat) : isUpperc (lowerc c) = false := by
  unfold lowerc isUpperc
  by_cases h : 65 ≤ c ∧ c ≤ 90
  · rw [if_pos h]
    simp only [Bool.and_eq_false_iff, decide_eq_false_iff_not, not_le]
    omega
  · rw [if_neg h]
    simp only [Bool.and_eq_false_iff, decide_eq_false_iff_not, not_le]
    omega

/-- A lower-cased text has no upper-case characters, so its caps ratio
is zero. -/
theorem capsCount_lowerT (t : Text) : capsCount (lowerT t) = 0 := by
  unfold capsCount lowerT
  rw [List.countP_eq_zero]
  intro a ha
  obtain ⟨b, _, rfl⟩ := List.mem_map.mp ha
  simp [isUpperc_lowerc]

/-- The subjectivity used by `detect_emotion` under oracle `tb`. -/
def subjOf (tb : Option (ℚ × ℚ)) : ℚ :=
  match tb with
  | some v => v.2
  | none => 0

set_option maxRecDepth 8000 in
/-- C7 (as stated) is false: on "HATE HATE HATE!!" the spec's formula —
with the uppercase ratio of the input — buckets to high (score 10.5),
but the classifier returns medium, because `detect_emotion` hands the
lower-cased text to `_calculate_intensity`, zeroing the uppercase term
(here with subjectivity 0, as the classifier itself reports). -/
theorem c7_counterexample :
    intensityBucket (intensityScore (str "HATE HATE HATE!!") 0) = str "high" ∧
    (detect_emotion none (str "HATE HATE HATE!!")).intensity = some (str "medium") ∧
    (detect_emotion none (str "HATE HATE HATE!!")).subjectivity = some 0 := by
  refine ⟨?_, ?_, ?_⟩
  · have h1 : highCount (str "HATE HATE HATE!!") = 0 := by decide
    have h2 : exclCount (str "HATE HATE HATE!!") = 2 := by decide
    have h3 : lowCount (str "HATE HATE HATE!!") = 0 := by decide
    have h4 : capsCount (str "HATE HATE HATE!!") = 12 := by decide
    have h5 : (str "HATE HATE HATE!!").length = 16 := by decide
    unfold intensityBucket intensityScore
    rw [h1, h2, h3, h4, h5]
    norm_num
  · have hint : (detect_emotion none (str "HATE HATE HATE!!")).intensity =
        some (calculate_intensity (lowerT (str "HATE HATE HATE!!")) 0) := rfl
    rw [hint]
    have h1 : highCount (lowerT (str "HATE HATE HATE!!")) = 0 := by decide
    have h2 : exclCount (lowerT (str "HATE HATE HATE!!")) = 2 := by decide
    have h3 : lowCount (lowerT (str "HATE HATE HATE!!")) = 0 := by decide
    have h4 : capsCount (lowerT (str "HATE HATE HATE!!")) = 0 := by decide
    have h5 : (lowerT (str "HATE HATE HATE!!")).length = 16 := by decide
    unfold calculate_intensity intensityBucket intensityScore
    rw [h1, h2, h3, h4, h5]
    norm_num
  · have hsub : (detect_emotion none (str "HATE HATE HATE!!")).subjectivity =
        some (round2 0) := rfl
    rw [hsub]
    have : round2 0 = 0 := by
      unfold round2
      norm_num
    rw [this]

/-- C7 (amended): the classifier's intensity is the bucketing of the
score computed on the lower-cased input, whose uppercase-ratio term is
always zero: score = 2·high + 1.5·exclamations + 2·subjectivity − 2·low. -/
theorem c7_intensity (tb : Option (ℚ × ℚ)) (text : Text) :
    capsCount (lowerT text) = 0 ∧
    (detect_emotion tb text).intensity =
      some (intensityBucket
        ((highCount (lowerT text) : ℚ) * 2 + (exclCount (lowerT text) : ℚ) * (3 / 2)
          + subjOf tb * 2 - (lowCount (lowerT text) : ℚ) * 2)) := by
  refine ⟨capsCount_lowerT text, ?_⟩
  have hscore : intensityScore (lowerT text) (subjOf tb) =
      (highCount (lowerT text) : ℚ) * 2 + (exclCount (lowerT text) : ℚ) * (3 / 2)
        + subjOf tb * 2 - (lowCount (lowerT text) : ℚ) * 2 := by
    unfold intensityScore
    rw [capsCount_lowerT text]
    push_cast
    ring
  have hint : (detect_emotion tb text).intensity =
      some (calculate_intensity (lowerT text) (subjOf tb)) := by
    cases tb with
    | none => rfl
    | some v => rfl
  rw [hint]
  unfold calculate_intensity
  rw [hscore]

/-! ## Claim C8 -/

set_option maxRecDepth 8000 in
/-- C8 (as stated) is false: `sanitize_output` is not idempotent.  On
"a@b.com1234567890" the email pattern cannot match in the first pass
(no word boundary after "com"), the phone pass then redacts the digits,
and the second pass suddenly finds "a@b.com" delimited by "[", and
redacts it too. -/
theorem c8_counterexample :
    sanitize_output (sanitize_output (str "a@b.com1234567890")) ≠
      sanitize_output (str "a@b.com1234567890") := by decide

set_option maxRecDepth 8000 in
/-- C8 (amended): the three placeholder tokens themselves match none of
the redaction patterns — each is a fixed point of `sanitize_output` —
but full idempotence fails: on "a@b.com1234567890" the first pass yields
"a@b.com[phone removed]" and the second pass redacts the newly
delimited email. -/
theorem c8_placeholders_fixed :
    sanitize_output (str "[link removed]") = str "[link removed]" ∧
    sanitize_output (str "[email removed]") = str "[email removed]" ∧
    sanitize_output (str "[phone removed]") = str "[phone removed]" ∧
    sanitize_output (str "a@b.com1234567890") = str "a@b.com" ++ str "[phone removed]" ∧
    sanitize_output (sanitize_output (str "a@b.com1234567890")) =
      str "[email removed]" ++ str "[phone removed]" :=
  ⟨by decide, by decide, by decide, by decide, by decide⟩

/-! ## Claim C9 -/

/-- The flat turn sequence of a list of (user, assistant) pairs. -/
def turnsOf (pairs : List (Text × Text)) : List Turn :=
  (pairs.map (fun p => [(⟨str "user", p.1⟩ : Turn), (⟨str "assistant", p.2⟩ : Turn)])).flatten

/-- Appending a list of turn-pairs through `_update_history`, starting
from an empty internal history. -/
def appendAll (pairs : List (Text × Text)) (max_history : Nat) : List Turn :=
  pairs.foldl (fun h p => update_history h p.1 p.2 max_history) []

/-- Appending a pair to a history with at least two free slots never prunes. -/
theorem update_history_no_drop {h : List Turn} {N : Nat} (hle : h.length + 2 ≤ N * 2)
    (u b : Text) :
    update_history h u b N =
      h ++ [(⟨str "user", u⟩ : Turn), (⟨str "assistant", b⟩ : Turn)] := by
  simp only [update_history]
  rw [if_neg]
  simp only [List.length_append, List.length_cons, List.length_nil, gt_iff_lt, not_lt]
  omega

/-- Appending a pair to an exactly full history drops the oldest pair. -/
theorem update_history_prune {h : List Turn} {N : Nat} (hN : 1 ≤ N)
    (hfull : h.length = N * 2) (u b : Text) :
    update_history h u b N =
      (h ++ [(⟨str "user", u⟩ : Turn), (⟨str "assistant", b⟩ : Turn)]).drop 2 := by
  have hc1 : (h ++ [(⟨str "user", u⟩ : Turn), (⟨str "assistant", b⟩ : Turn)]).length > N * 2 := by
    simp only [List.length_append, List.length_cons, List.length_nil]
    omega
  simp only [update_history]
  rw [if_pos hc1, if_neg (show ¬ N * 2 = 0 by omega)]
  congr 1
  simp only [List.length_append, List.length_cons, List.length_nil, hfull]
  omega

/-- While at most `N` pairs have been appended, nothing is pruned. -/
theorem appendAll_short {pairs : List (Text × Text)} {N : Nat} {h0 : List Turn}
    (hlen : h0.length + 2 * pairs.length ≤ N * 2) :
    pairs.foldl (fun h p => update_history h p.1 p.2 N) h0 = h0 ++ turnsOf pairs := by
  induction pairs generalizing h0 with
  | nil => simp [turnsOf]
  | cons p rest ih =>
    simp only [List.length_cons] at hlen
    rw [List.foldl_cons, update_history_no_drop (by omega)]
    rw [ih (by simp only [List.length_append, List.length_cons, List.length_nil]; omega)]
    simp [turnsOf]

/-- The flat sequence of `ps` pairs has `2 · |ps|` entries. -/
theorem turnsOf_length (ps : List (Text × Text)) : (turnsOf ps).length = 2 * ps.length := by
  induction ps with
  | nil => simp [turnsOf]
  | cons q rest ih => simp [turnsOf] at ih ⊢; omega

/-- Flattening turn-pairs commutes with appending one pair. -/
theorem turnsOf_append_single (front : List (Text × Text)) (p : Text × Text) :
    turnsOf (front ++ [p]) =
      turnsOf front ++ [(⟨str "user", p.1⟩ : Turn), (⟨str "assistant", p.2⟩ : Turn)] := by
  simp [turnsOf]

/-- C9: with `max_history = N ≥ 1`, appending `N + 1` turn-pairs to an
empty internal history retains exactly the most recent `2 N` entries
(the oldest pair is dropped); moreover one update step always keeps a
bounded history within `2 N` entries, and always returns a suffix of the
appended sequence (FIFO, insertion order preserved). -/
theorem c9_history_fifo (N : Nat) (hN : 1 ≤ N) (pairs : List (Text × Text))
    (hlen : pairs.length = N + 1) :
    appendAll pairs N = (turnsOf pairs).drop 2 ∧
    (turnsOf pairs).length = 2 * N + 2 ∧
    (∀ (h : List Turn) (u b : Text), h.length ≤ 2 * N →
      (update_history h u b N).length ≤ 2 * N) ∧
    (∀ (h : List Turn) (u b : Text), ∃ k,
      update_history h u b N =
        (h ++ [(⟨str "user", u⟩ : Turn), (⟨str "assistant", b⟩ : Turn)]).drop k) := by
  refine ⟨?_, ?_, ?_, ?_⟩
  · have hne : pairs ≠ [] := by
      intro hnil
      rw [hnil] at hlen
      simp at hlen
    obtain ⟨front, last, hfl⟩ := (List.eq_nil_or_concat pairs).resolve_left hne
    rw [List.concat_eq_append] at hfl
    subst hfl
    have hfront : front.length = N := by
      simp only [List.length_append, List.length_cons, List.length_nil] at hlen
      omega
    unfold appendAll
    rw [List.foldl_append, List.foldl_cons, List.foldl_nil]
    rw [appendAll_short (by simp only [List.length_nil, hfront]; omega), List.nil_append]
    have hflen : (turnsOf front).length = N * 2 := by rw [turnsOf_length, hfront]; omega
    rw [update_history_prune hN hflen, turnsOf_append_single]
  · rw [turnsOf_length, hlen]; omega
  · intro h u b hle
    simp only [update_history]
    by_cases hgt : (h ++ [(⟨str "user", u⟩ : Turn), (⟨str "assistant", b⟩ : Turn)]).length > N * 2
    · rw [if_pos hgt, if_neg (show ¬ N * 2 = 0 by omega)]
      simp only [List.length_drop]
      omega
    · rw [if_neg hgt]
      simp only [List.length_append, List.length_cons, List.length_nil, gt_iff_lt,
        not_lt] at hgt
      simp only [List.length_append, List.length_cons, List.length_nil]
      omega
  · intro h u b
    simp only [update_history]
    by_cases hgt : (h ++ [(⟨str "user", u⟩ : Turn), (⟨str "assistant", b⟩ : Turn)]).length > N * 2
    · rw [if_pos hgt, if_neg (show ¬ N * 2 = 0 by omega)]
      exact ⟨_, rfl⟩
    · rw [if_neg hgt]
      exact ⟨0, by simp⟩

/-- C9 witness: three pairs with `max_history = 2` retain the last four
entries. -/
theorem c9_witness :
    appendAll [(str "a", str "b"), (str "c", str "d"), (str "e", str "f")] 2 =
      (turnsOf [(str "a", str "b"), (str "c", str "d"), (str "e", str "f")]).drop 2 :=
  (c9_history_fifo 2 (by omega)
    [(str "a", str "b"), (str "c", str "d"), (str "e", str "f")] (by decide)).1

/-! ## Claim C10 -/

/-- C10: the fallback pools cover exactly sad, anxious, angry, happy,
neutral and fearful; "confused" has no pool of its own — even though it
has its own keyword set and its own prompt-guidance template — so (like
any other poolless label) its canned sentence is drawn from the neutral
pool: its fallback replies coincide with the neutral ones for every
message and draw. -/
theorem c10_confused_uses_neutral_pool :
    fallback_responses.map (fun p => p.1) =
      [str "sad", str "anxious", str "angry", str "happy", str "neutral", str "fearful"] ∧
    lookupT fallback_responses (str "confused") = none ∧
    (lookupT emotion_keywords (str "confused")).isSome = true ∧
    get_emotion_context (str "confused") ≠ neutral_guidance ∧
    (∀ (msg : Text) (rand : Nat),
      fallback_response (str "confused") msg rand = fallback_response (str "neutral") msg rand) ∧
    (∀ (e msg : Text) (rand : Nat), lookupT fallback_responses e = none →
      fallback_response e msg rand = fallback_response (str "neutral") msg rand) := by
  refine ⟨by decide, by decide, by decide, by decide, fun msg rand => rfl, ?_⟩
  intro e msg rand he
  unfold fallback_response
  rw [he]
  rfl

/-- C10 witness: the poolless-label clause applied to "confused" at a
concrete message and draw. -/
theorem c10_witness :
    fallback_response (str "confused") (str "what should I do") 4 =
      fallback_response (str "neutral") (str "what should I do") 4 :=
  c10_confused_uses_neutral_pool.2.2.2.2.2 (str "confused") (str "what should I do") 4
    (by decide)

/-- C3 witness: a raising service call and an absent service produce the
same pipeline result on a concrete message. -/
theorem c3_witness :
    generateT .raises none 0 (str "tell me about your day") none [] =
      generateT .unavailable none 0 (str "tell me about your day") none [] :=
  (c3_total .raises (str "p") (str "x") 0).2 none (str "tell me about your day") none []

/-- C7 witness: the amended intensity characterization at a concrete
oracle and input. -/
theorem c7_witness :
    capsCount (lowerT (str "I am SO worried!!")) = 0 ∧
    (detect_emotion (some (-(1 / 2), 3 / 5)) (str "I am SO worried!!")).intensity =
      some (intensityBucket
        ((highCount (lowerT (str "I am SO worried!!")) : ℚ) * 2 +
          (exclCount (lowerT (str "I am SO worried!!")) : ℚ) * (3 / 2) +
          subjOf (some (-(1 / 2), 3 / 5)) * 2 -
          (lowCount (lowerT (str "I am SO worried!!")) : ℚ) * 2)) :=
  c7_intensity (some (-(1 / 2), 3 / 5)) (str "I am SO worried!!")
